import Mathlib

/-!
Shallow embedding of the E-shop storefront backend (Express + Mongoose) and
proofs about its order workflow, user directory and catalog handlers.

Every definition is translated from the route handlers in
src/routes/orders.js, src/routes/products.js and src/routes/users.js.
The Mongoose document store is modelled as explicit lists of documents
inside a DB state record; saving a document assigns it the next fresh id.
JavaScript truthiness quirks that the handlers rely on (arrays are always
truthy, a numeric count is falsy exactly at 0) are modelled explicitly.
-/

namespace Eshop

/-- JSON-ish scalar or flat array value used in response bodies. -/
inductive JsVal where
  | str : String → JsVal
  | num : Int → JsVal
  | bool : Bool → JsVal
  | null : JsVal
  | numArr : List Int → JsVal
  | strArr : List String → JsVal
deriving DecidableEq, Repr

/-- Body of an HTTP response: res.send of a plain string, a JSON object, or a
JSON array of objects. -/
inductive Body where
  | text : String → Body
  | jsonObj : List (String × JsVal) → Body
  | jsonArr : List (List (String × JsVal)) → Body
deriving DecidableEq, Repr

/-- An HTTP response as produced by res.status(...).send/json(...). -/
structure Response where
  status : Nat
  body : Body
deriving DecidableEq, Repr

/-- Look a field up in a JSON-object response body. -/
def lookupField (b : Body) (key : String) : Option JsVal :=
  match b with
  | Body.jsonObj kvs => (kvs.find? (fun kv => kv.1 == key)).map (fun kv => kv.2)
  | _ => none

/-- Category document (models/category.js is not under src; fields are the
ones the categories routes read and write: name, icon, color). -/
structure Category where
  id : String
  name : String
  icon : String
  color : String
deriving DecidableEq, Repr

/-- Product document, from the schema in the product model. The schema
declares price with type String but default 0; the stored value is numeric
and the order workflow multiplies it, so it is modelled as Int. -/
structure Product where
  id : String
  name : String
  description : String
  richDescription : String
  image : String
  images : List String
  brand : String
  price : Int
  category : String
  countInStock : Int
  rating : Int
  numReviews : Int
  isFeatured : Bool
deriving DecidableEq, Repr

/-- User document: the fields written by POST /users/register in
src/routes/users.js (the user model file is not under src). -/
structure StoredUser where
  id : Nat
  name : String
  email : String
  passwordHash : String
  phone : String
  isAdmin : Bool
  street : String
  apartment : String
  zip : String
  city : String
  country : String
deriving DecidableEq, Repr

/-- OrderItem document: quantity and a product reference, as written by the
POST /orders handler. Ids are generated by the store on save. -/
structure OrderItem where
  id : Nat
  quantity : Int
  product : String
deriving DecidableEq, Repr

/-- Order document: the fields written by the POST /orders handler in
src/routes/orders.js. -/
structure Order where
  id : Nat
  orderItems : List Nat
  shippingAddress1 : String
  shippingAddress2 : String
  city : String
  zip : String
  country : String
  phone : String
  status : String
  totalPrice : Int
  user : String
deriving DecidableEq, Repr

/-- The document store: one collection per model plus a fresh-id counter for
documents the store creates (order items, orders, users). -/
structure DB where
  categories : List Category
  products : List Product
  users : List StoredUser
  orders : List Order
  orderItems : List OrderItem
  nextId : Nat
deriving DecidableEq, Repr

/-- Category.findById. -/
def findCategory (st : DB) (cid : String) : Option Category :=
  st.categories.find? (fun c => c.id == cid)

/-- Product.findById. -/
def findProduct (st : DB) (pid : String) : Option Product :=
  st.products.find? (fun p => p.id == pid)

/-- User.findOne with an email filter. -/
def findUserByEmail (st : DB) (email : String) : Option StoredUser :=
  st.users.find? (fun u => u.email == email)

/-- Order.findById. -/
def findOrder (st : DB) (oid : Nat) : Option Order :=
  st.orders.find? (fun o => o.id == oid)

/-- OrderItem.findById. -/
def findOrderItem (st : DB) (iid : Nat) : Option OrderItem :=
  st.orderItems.find? (fun it => it.id == iid)

/-- Well-formed store: every order-item id was generated below the fresh-id
counter, so freshly generated ids never collide with stored ones. -/
def wf (st : DB) : Prop :=
  ∀ it ∈ st.orderItems, it.id < st.nextId

instance (st : DB) : Decidable (wf st) := by
  unfold wf; infer_instance

/-- Model of bcryptjs hashSync (external library): an injective tagging of
the password with the round count, so that compareSync can verify it. -/
def hashSync (password : String) (rounds : Nat) : String :=
  "$2a$" ++ toString rounds ++ "$" ++ password

/-- Model of bcryptjs compareSync: verifies a password against a stored
hash produced by hashSync with 10 rounds (the value both handlers use). -/
def compareSync (password : String) (hash : String) : Bool :=
  hash == hashSync password 10

/-- Model of jwt.sign (external library): an opaque token determined by the
subject id, the admin flag and the server secret, with a 1 day expiry. -/
def jwtSign (userId : Nat) (isAdmin : Bool) (secret : String) : String :=
  secret ++ ":" ++ toString userId ++ ":" ++ toString isAdmin

/-- JavaScript truthiness of an array value: every array object, including
the empty array, is truthy, so the negation !array is always false. -/
def jsArrayFalsy {α : Type} (_xs : List α) : Bool := false

/-- JavaScript truthiness of a numeric count: a number is falsy exactly
when it is 0, so !count is true exactly at count 0. -/
def jsNumFalsy (n : Nat) : Bool := n == 0

/-! ## Serialization

Mongoose default toJSON serializes every stored field of a document: the
explicit select of minus passwordHash in GET /users and GET /users/:id is
what removes the hash there, so a document sent without that projection
carries its passwordHash field. -/

/-- Serialization of a full user document, as sent by res.send(user) after
a save (all schema fields present, passwordHash included). -/
def userJson (u : StoredUser) : List (String × JsVal) :=
  [ ("id", JsVal.num (Int.ofNat u.id)),
    ("name", JsVal.str u.name),
    ("email", JsVal.str u.email),
    ("passwordHash", JsVal.str u.passwordHash),
    ("phone", JsVal.str u.phone),
    ("isAdmin", JsVal.bool u.isAdmin),
    ("street", JsVal.str u.street),
    ("apartment", JsVal.str u.apartment),
    ("zip", JsVal.str u.zip),
    ("city", JsVal.str u.city),
    ("country", JsVal.str u.country) ]

/-- Serialization of a user document fetched with select of minus
passwordHash: identical to userJson except the hash field is absent. -/
def userJsonNoHash (u : StoredUser) : List (String × JsVal) :=
  [ ("id", JsVal.num (Int.ofNat u.id)),
    ("name", JsVal.str u.name),
    ("email", JsVal.str u.email),
    ("phone", JsVal.str u.phone),
    ("isAdmin", JsVal.bool u.isAdmin),
    ("street", JsVal.str u.street),
    ("apartment", JsVal.str u.apartment),
    ("zip", JsVal.str u.zip),
    ("city", JsVal.str u.city),
    ("country", JsVal.str u.country) ]

/-- Serialization of a product document. -/
def productJson (p : Product) : List (String × JsVal) :=
  [ ("id", JsVal.str p.id),
    ("name", JsVal.str p.name),
    ("description", JsVal.str p.description),
    ("richDescription", JsVal.str p.richDescription),
    ("image", JsVal.str p.image),
    ("images", JsVal.strArr p.images),
    ("brand", JsVal.str p.brand),
    ("price", JsVal.num p.price),
    ("category", JsVal.str p.category),
    ("countInStock", JsVal.num p.countInStock),
    ("rating", JsVal.num p.rating),
    ("numReviews", JsVal.num p.numReviews),
    ("isFeatured", JsVal.bool p.isFeatured) ]

/-! ## User Directory handlers (src/routes/users.js) -/

/-- Request body of POST /users/register. -/
structure RegisterBody where
  name : String
  email : String
  password : String
  phone : String
  isAdmin : Bool
  street : String
  apartment : String
  zip : String
  city : String
  country : String
deriving DecidableEq, Repr

/-- Request body of POST /users/login. -/
structure LoginBody where
  email : String
  password : String
deriving DecidableEq, Repr

/-- POST /users/register: builds a user from the request body (isAdmin is
taken from req.body.isAdmin, the password is hashed with 10 rounds), saves
it, and responds res.send(user) with the saved document. The !user branch
returning 400 is dead: a saved document is always truthy. -/
def registerHandler (st : DB) (body : RegisterBody) : DB × Response :=
  let user : StoredUser :=
    { id := st.nextId,
      name := body.name,
      email := body.email,
      passwordHash := hashSync body.password 10,
      phone := body.phone,
      isAdmin := body.isAdmin,
      street := body.street,
      apartment := body.apartment,
      zip := body.zip,
      city := body.city,
      country := body.country }
  let st2 : DB := { st with users := st.users ++ [user], nextId := st.nextId + 1 }
  (st2, { status := 200, body := Body.jsonObj (userJson user) })

/-- GET /users: User.find().select(minus passwordHash), sent as a JSON
array of projected user documents. -/
def listUsersHandler (st : DB) : Response :=
  { status := 200, body := Body.jsonArr (st.users.map userJsonNoHash) }

/-- POST /users/login: looks the user up by email; absent email answers
400 with the text The user not found; present email with a failing
password comparison answers 400 with the distinct text Password is wrong;
success answers 200 with the email and a signed token. -/
def loginHandler (st : DB) (body : LoginBody) (secret : String) : Response :=
  match findUserByEmail st body.email with
  | none => { status := 400, body := Body.text ("The user not found") }
  | some user =>
    if compareSync body.password user.passwordHash then
      { status := 200,
        body := Body.jsonObj
          [ ("user", JsVal.str user.email),
            ("token", JsVal.str (jwtSign user.id user.isAdmin secret)) ] }
    else
      { status := 400, body := Body.text ("Password is wrong") }

/-! ## Count handlers -/

/-- The 500 response the three count handlers send when the counted number
is falsy. -/
def countErrorResp : Response :=
  { status := 500, body := Body.jsonObj [("success", JsVal.bool false)] }

/-- GET /orders/get/count: countDocuments, then the guard !orderCount sends
500 success false; a numeric count is falsy exactly at 0. -/
def ordersCountHandler (st : DB) : Response :=
  let orderCount := st.orders.length
  if jsNumFalsy orderCount then countErrorResp
  else { status := 200, body := Body.jsonObj [("count", JsVal.num (Int.ofNat orderCount))] }

/-- GET /products/get/count: same guard shape as the orders count. -/
def productsCountHandler (st : DB) : Response :=
  let countProduct := st.products.length
  if jsNumFalsy countProduct then countErrorResp
  else { status := 200, body := Body.jsonObj [("count", JsVal.num (Int.ofNat countProduct))] }

/-- GET /users/get/count: same guard shape; the success body uses the key
userCount. -/
def usersCountHandler (st : DB) : Response :=
  let userCount := st.users.length
  if jsNumFalsy userCount then countErrorResp
  else { status := 200, body := Body.jsonObj [("userCount", JsVal.num (Int.ofNat userCount))] }

/-! ## Total sales (GET /orders/get/totalsales) -/

/-- The Mongo aggregation group stage with a null id and a sum of
totalPrice: over zero documents it yields no group rows at all, over a
nonempty collection it yields the single row with the sum. -/
def totalSalesRows (orders : List Order) : List Int :=
  if orders.isEmpty then []
  else [(orders.map (fun o => o.totalPrice)).foldl (fun a b => a + b) 0]

/-- GET /orders/get/totalsales: the guard !totalSales tests an array,
which is always truthy, so the 400 branch is dead; then pop() takes the
last row and reading totalsales off an undefined pop result of an empty
array throws a TypeError, modelled as the error outcome. -/
def totalSalesHandler (st : DB) : Except String Response :=
  let totalSales := totalSalesRows st.orders
  if jsArrayFalsy totalSales then
    Except.ok { status := 400, body := Body.text ("The order sales cannot be generated") }
  else
    match totalSales.getLast? with
    | none => Except.error ("TypeError: Cannot read properties of undefined (reading totalsales)")
    | some v => Except.ok { status := 200, body := Body.jsonObj [("totalSales", JsVal.num v)] }

/-! ## Product update (PUT /products/:id in src/routes/products.js) -/

/-- Hexadecimal digit test, for ObjectId syntax. -/
def isHexDigit (c : Char) : Bool :=
  c.isDigit || (('a').toNat ≤ c.toNat && c.toNat ≤ ('f').toNat)
    || (('A').toNat ≤ c.toNat && c.toNat ≤ ('F').toNat)

/-- Model of mongoose.isValidObjectId on a string: a 24 character
hexadecimal string (or a raw 12 character string) is a valid ObjectId. -/
def isValidObjectId (s : String) : Bool :=
  (s.length == 24 && s.toList.all isHexDigit) || s.length == 12

/-- Request body of PUT /products/:id. -/
structure ProductBody where
  name : String
  description : String
  richDescription : String
  image : String
  images : List String
  brand : String
  price : Int
  category : String
  countInStock : Int
  rating : Int
  numReviews : Int
  isFeatured : Bool
deriving DecidableEq, Repr

/-- Trace of one PUT /products/:id request: the final store, every
response the handler attempted to send in order, and whether the category
lookup and the findByIdAndUpdate call were reached. -/
structure PutTrace where
  state : DB
  responses : List Response
  categoryLookupAttempted : Bool
  updateAttempted : Bool
  castError : Bool
deriving DecidableEq, Repr

/-- The 400 response for a syntactically invalid product id. -/
def invalidIdResp : Response := { status := 400, body := Body.text ("Invalid Product Id") }

/-- The 400 response for a missing category. -/
def invalidCategoryResp : Response := { status := 400, body := Body.text ("Invalid Category") }

/-- The document findByIdAndUpdate writes: a full replace of the listed
fields taken from the request body, keeping the id. -/
def applyProductUpdate (p : Product) (body : ProductBody) : Product :=
  { id := p.id,
    name := body.name,
    description := body.description,
    richDescription := body.richDescription,
    image := body.image,
    images := body.images,
    brand := body.brand,
    price := body.price,
    category := body.category,
    countInStock := body.countInStock,
    rating := body.rating,
    numReviews := body.numReviews,
    isFeatured := body.isFeatured }

/-- PUT /products/:id. The invalid-ObjectId branch sends its 400 response
without a return, so execution continues into the category lookup and the
update in every case; with an invalid id the findByIdAndUpdate call is
still made and rejects with a CastError. -/
def productUpdateHandler (st : DB) (paramId : String) (body : ProductBody) : PutTrace :=
  let rs : List Response := if isValidObjectId paramId then [] else [invalidIdResp]
  match findCategory st body.category with
  | none =>
    { state := st, responses := rs ++ [invalidCategoryResp],
      categoryLookupAttempted := true, updateAttempted := false, castError := false }
  | some _ =>
    if isValidObjectId paramId then
      match findProduct st paramId with
      | none =>
        { state := st,
          responses := rs ++ [{ status := 404, body := Body.text ("the product cannot be updated!") }],
          categoryLookupAttempted := true, updateAttempted := true, castError := false }
      | some p =>
        let p2 := applyProductUpdate p body
        { state := { st with products := st.products.map (fun q => if q.id == paramId then p2 else q) },
          responses := rs ++ [{ status := 200, body := Body.jsonObj (productJson p2) }],
          categoryLookupAttempted := true, updateAttempted := true, castError := false }
    else
      { state := st, responses := rs,
        categoryLookupAttempted := true, updateAttempted := true, castError := true }

/-! ## Order deletion (DELETE /orders/:id in src/routes/orders.js) -/

/-- Order.findByIdAndRemove, removal half: drop the document with the
given id (ids are unique in the store). -/
def removeOrder (st : DB) (oid : Nat) : DB :=
  { st with orders := st.orders.filter (fun o => o.id != oid) }

/-- OrderItem.findByIdAndRemove, removal half. -/
def removeOrderItem (st : DB) (iid : Nat) : DB :=
  { st with orderItems := st.orderItems.filter (fun it => it.id != iid) }

/-- The console.log line for an order item that could not be found. -/
def itemLog (iid : Nat) : String :=
  "Could not find and delete orderItem: " ++ toString iid

/-- The per-item cascade of DELETE /orders/:id: each referenced order item
is removed with findByIdAndRemove; a null result (item already gone) is
logged and the cascade continues. Returns the final store and the logs. -/
def deleteItems : DB → List Nat → DB × List String
  | st, [] => (st, [])
  | st, iid :: rest =>
    match findOrderItem st iid with
    | none =>
      let r := deleteItems st rest
      (r.1, itemLog iid :: r.2)
    | some _ => deleteItems (removeOrderItem st iid) rest

/-- The 404 body of DELETE /orders/:id on a missing order. -/
def orderNotFoundResp : Response :=
  { status := 404,
    body := Body.jsonObj [("success", JsVal.bool false), ("message", JsVal.str ("order not found!"))] }

/-- The 200 body of DELETE /orders/:id on success. -/
def orderDeletedResp : Response :=
  { status := 200,
    body := Body.jsonObj [("success", JsVal.bool true), ("message", JsVal.str ("the order is deleted!"))] }

/-- DELETE /orders/:id: findByIdAndRemove on the order; a null order
answers 404; otherwise the order is removed, each referenced order item is
removed best-effort with missing ones logged, and the handler answers 200
success. Returns the final store, the response and the logs. -/
def deleteOrderHandler (st : DB) (oid : Nat) : DB × Response × List String :=
  match findOrder st oid with
  | none => (st, orderNotFoundResp, [])
  | some order =>
    let st1 := removeOrder st oid
    let r := deleteItems st1 order.orderItems
    (r.1, orderDeletedResp, r.2)

/-! ## Order creation (POST /orders in src/routes/orders.js) -/

/-- One cart line of the request body: a quantity and a product id. -/
structure CartLine where
  quantity : Int
  product : String
deriving DecidableEq, Repr

/-- Request body of POST /orders. -/
structure OrderBody where
  orderItems : List CartLine
  shippingAddress1 : String
  shippingAddress2 : String
  city : String
  zip : String
  country : String
  phone : String
  status : String
  user : String
deriving DecidableEq, Repr

/-- Step 1 of the handler: new OrderItem(quantity, product).save() for one
cart line; the store assigns the next fresh id. -/
def saveOrderItem (st : DB) (line : CartLine) : DB × Nat :=
  let item : OrderItem := { id := st.nextId, quantity := line.quantity, product := line.product }
  ({ st with orderItems := st.orderItems ++ [item], nextId := st.nextId + 1 }, item.id)

/-- Step 1 over the whole cart (Promise.all over the mapped saves, results
in cart order): returns the store after all saves and the new item ids. -/
def saveOrderItems : DB → List CartLine → DB × List Nat
  | st, [] => (st, [])
  | st, line :: rest =>
    let r1 := saveOrderItem st line
    let r2 := saveOrderItems r1.1 rest
    (r2.1, r1.2 :: r2.2)

/-- Step 2 for one item id: OrderItem.findById(id).populate(product,
price), then product.price times quantity. A null order item, or a null
populated product (the referenced product no longer exists), makes the
property read throw a TypeError, modelled as the error outcome; the price
is never coerced to 0. -/
def resolveItemTotal (st : DB) (iid : Nat) : Except String Int :=
  match findOrderItem st iid with
  | none => Except.error ("TypeError: Cannot read properties of null (reading product)")
  | some item =>
    match findProduct st item.product with
    | none => Except.error ("TypeError: Cannot read properties of null (reading price)")
    | some p => Except.ok (p.price * item.quantity)

/-- Promise.all over a mapped fallible computation: the first rejection
rejects the whole batch, otherwise all results are collected in order. -/
def mapExcept {α β : Type} (f : α → Except String β) : List α → Except String (List β)
  | [] => Except.ok []
  | a :: as =>
    match f a with
    | Except.error e => Except.error e
    | Except.ok b =>
      match mapExcept f as with
      | Except.error e => Except.error e
      | Except.ok bs => Except.ok (b :: bs)

/-- POST /orders: save every cart line as an order item, resolve every
line total from the catalog through the saved items, reduce with numeric
addition from 0, and save the order with the computed totalPrice. A throw
in the price-resolution step leaves the already saved order items in the
store but never saves an order. -/
def createOrder (st : DB) (body : OrderBody) : DB × Except String Order :=
  let r1 := saveOrderItems st body.orderItems
  match mapExcept (resolveItemTotal r1.1) r1.2 with
  | Except.error e => (r1.1, Except.error e)
  | Except.ok totalPrices =>
    let totalPrice := totalPrices.foldl (fun a b => a + b) 0
    let order : Order :=
      { id := r1.1.nextId,
        orderItems := r1.2,
        shippingAddress1 := body.shippingAddress1,
        shippingAddress2 := body.shippingAddress2,
        city := body.city,
        zip := body.zip,
        country := body.country,
        phone := body.phone,
        status := body.status,
        totalPrice := totalPrice,
        user := body.user }
    ({ r1.1 with orders := r1.1.orders ++ [order], nextId := r1.1.nextId + 1 },
     Except.ok order)

/-- The price the catalog holds for a product id (0 when absent; the
theorems that use it always require the product to exist). -/
def catalogPrice (st : DB) (pid : String) : Int :=
  match findProduct st pid with
  | some p => p.price
  | none => 0

/-- The sum the specification states: over the cart lines, quantity times
the catalog price of the referenced product, reduced from 0. -/
def cartTotal (st : DB) (lines : List CartLine) : Int :=
  (lines.map (fun l => l.quantity * catalogPrice st l.product)).foldl (fun a b => a + b) 0

/-! ## Concrete stores and request bodies used by witnesses -/

/-- A store with every collection empty. -/
def emptyDB : DB :=
  { categories := [], products := [], users := [], orders := [], orderItems := [], nextId := 0 }

/-- A hex ObjectId for the first product. -/
def pid1 : String := "aaaaaaaaaaaaaaaaaaaaaaaa"

/-- A hex ObjectId for the second product. -/
def pid2 : String := "bbbbbbbbbbbbbbbbbbbbbbbb"

/-- A hex ObjectId for the category. -/
def cid1 : String := "cccccccccccccccccccccccc"

/-- A hex ObjectId referencing no product. -/
def pidGhost : String := "ffffffffffffffffffffffff"

/-- A sample category. -/
def cat1 : Category := { id := cid1, name := "Electronics", icon := "chip", color := "blue" }

/-- A sample product priced 10. -/
def prod1 : Product :=
  { id := pid1, name := "Widget", description := "w", richDescription := "", image := "",
    images := [], brand := "Acme", price := 10, category := cid1, countInStock := 5,
    rating := 4, numReviews := 2, isFeatured := true }

/-- A sample product priced 5. -/
def prod2 : Product :=
  { prod1 with id := pid2, name := "Gadget", price := 5, isFeatured := false }

/-- A pre-existing order with stored total 25. -/
def orderSeed : Order :=
  { id := 1, orderItems := [], shippingAddress1 := "1 Main", shippingAddress2 := "",
    city := "NY", zip := "10001", country := "US", phone := "555", status := "Pending",
    totalPrice := 25, user := "u1" }

/-- A store holding the sample catalog and the pre-existing order. -/
def dbCat : DB :=
  { categories := [cat1], products := [prod1, prod2], users := [], orders := [orderSeed],
    orderItems := [], nextId := 100 }

/-- The cart of the specification example: 2 of prod1 at 10 and 1 of prod2
at 5, so the expected total is 25. -/
def body1 : OrderBody :=
  { orderItems := [{ quantity := 2, product := pid1 }, { quantity := 1, product := pid2 }],
    shippingAddress1 := "1 Main", shippingAddress2 := "", city := "NY", zip := "10001",
    country := "US", phone := "555", status := "Pending", user := "u1" }

/-- A cart line referencing a product absent from the catalog. -/
def lineGhost : CartLine := { quantity := 3, product := pidGhost }

/-- A cart whose second line references a missing product. -/
def bodyGhost : OrderBody :=
  { body1 with orderItems := [{ quantity := 2, product := pid1 }, lineGhost] }

/-- A product update body that raises the price to 999. -/
def prodBody2 : ProductBody :=
  { name := "Widget", description := "w", richDescription := "", image := "", images := [],
    brand := "Acme", price := 999, category := cid1, countInStock := 5, rating := 4,
    numReviews := 2, isFeatured := true }

/-- A registration body that requests admin privileges. -/
def regBodyAdmin : RegisterBody :=
  { name := "Mallory", email := "mallory@example.com", password := "pw", phone := "1",
    isAdmin := true, street := "s", apartment := "a", zip := "z", city := "c", country := "VN" }

/-- An ordinary registration body. -/
def regBodyU : RegisterBody :=
  { regBodyAdmin with
    name := "Alice", email := "alice@example.com", password := "hunter2", isAdmin := false }

/-- A stored user whose hash verifies the password right. -/
def userA : StoredUser :=
  { id := 7, name := "Bob", email := "bob@example.com", passwordHash := hashSync ("right") 10,
    phone := "2", isAdmin := false, street := "s", apartment := "", zip := "", city := "",
    country := "" }

/-- The same stored user with a different password hash. -/
def userAHash2 : StoredUser := { userA with passwordHash := "other-hash" }

/-- A store holding userA. -/
def dbHashA : DB := { emptyDB with users := [userA] }

/-- A store holding the hash-variant of userA. -/
def dbHashB : DB := { emptyDB with users := [userAHash2] }

/-- An order referencing items 10 and 11, of which only 10 is stored. -/
def order41 : Order := { orderSeed with id := 41, orderItems := [10, 11], totalPrice := 30 }

/-- The one stored order item of order41. -/
def item10 : OrderItem := { id := 10, quantity := 2, product := pid1 }

/-- A store for the deletion witness: order41 present, item 11 already gone. -/
def db4 : DB := { emptyDB with orders := [order41], orderItems := [item10], nextId := 50 }

/-! ## Theorems -/

/-- C3: with zero orders the totalsales handler does not return a 0 total:
the aggregate yields the empty array, the guard never fires because arrays
are truthy, and reading totalsales off the undefined result of popping an
empty array throws a TypeError. The claimed explicit empty-collection
guard is absent, so the request fails instead of answering 0. -/
theorem totalSales_empty_throws :
    totalSalesHandler emptyDB =
      Except.error ("TypeError: Cannot read properties of undefined (reading totalsales)") := by
  rfl

/-- C9: the three count endpoints treat a zero count as a failure: on an
empty collection the guard on the falsy numeric count fires and each
handler answers 500 with success false instead of a 200 count of 0. -/
theorem countHandlers_zero_failure (st : DB) :
    (st.orders = [] → ordersCountHandler st = countErrorResp) ∧
    (st.products = [] → productsCountHandler st = countErrorResp) ∧
    (st.users = [] → usersCountHandler st = countErrorResp) := by
  refine ⟨fun h => ?_, fun h => ?_, fun h => ?_⟩ <;>
    simp [ordersCountHandler, productsCountHandler, usersCountHandler, jsNumFalsy, h]

/-- Witness for countHandlers_zero_failure at the empty store. -/
theorem countHandlers_zero_failure_witness :
    ordersCountHandler emptyDB = countErrorResp ∧
    productsCountHandler emptyDB = countErrorResp ∧
    usersCountHandler emptyDB = countErrorResp :=
  ⟨(countHandlers_zero_failure emptyDB).1 rfl,
   (countHandlers_zero_failure emptyDB).2.1 rfl,
   (countHandlers_zero_failure emptyDB).2.2 rfl⟩

/-- C6 counterexample: registering with isAdmin true stores a user whose
admin flag is true, not false: the handler copies req.body.isAdmin into
the saved document, so the claim that register always yields a non-admin
user fails at this concrete input. -/
theorem register_forcesNonAdmin_counterexample :
    ((registerHandler emptyDB regBodyAdmin).1.users.map (fun u => u.isAdmin)) = [true] ∧
    ¬ ((registerHandler emptyDB regBodyAdmin).1.users.map (fun u => u.isAdmin)) = [false] := by
  constructor
  · rfl
  · decide

/-- C6 amended: register stores the caller-supplied isAdmin flag verbatim
rather than forcing it to false: the stored admin flags are exactly the
previous ones extended with the flag of the request body. -/
theorem register_isAdmin_passthrough (st : DB) (body : RegisterBody) :
    ((registerHandler st body).1.users.map (fun u => u.isAdmin)) =
      st.users.map (fun u => u.isAdmin) ++ [body.isAdmin] := by
  simp [registerHandler]

/-- C7: the register response leaks the stored password hash: the handler
answers res.send(user) with the saved document, whose serialization keeps
the passwordHash field, while the user list response (built through the
select of minus passwordHash) is identical for two stored users differing
only in their hash. The hash is therefore not absent from every returned
representation. -/
theorem register_response_contains_passwordHash :
    lookupField (registerHandler emptyDB regBodyU).2.body ("passwordHash") =
      some (JsVal.str (hashSync ("hunter2") 10)) ∧
    listUsersHandler dbHashA = listUsersHandler dbHashB := by
  exact ⟨rfl, rfl⟩

/-- C8: login distinguishes its two failure cases with distinct terminal
400 responses: an unknown email answers the text The user not found, and a
known email with a failing password comparison answers the text Password
is wrong; the two responses differ. -/
theorem login_distinguishes_failures (st : DB) (body : LoginBody) (secret : String) :
    (findUserByEmail st body.email = none →
      loginHandler st body secret = { status := 400, body := Body.text ("The user not found") }) ∧
    (∀ u, findUserByEmail st body.email = some u →
      compareSync body.password u.passwordHash = false →
      loginHandler st body secret = { status := 400, body := Body.text ("Password is wrong") }) ∧
    ({ status := 400, body := Body.text ("The user not found") } : Response) ≠
      { status := 400, body := Body.text ("Password is wrong") } := by
  refine ⟨fun h => ?_, fun u hu hc => ?_, by decide⟩
  · simp [loginHandler, h]
  · simp [loginHandler, hu, hc]

/-- Witness for login_distinguishes_failures: an unknown email and a wrong
password against the stored user userA. -/
theorem login_distinguishes_failures_witness :
    loginHandler dbHashA { email := "ghost@example.com", password := "pw" } "s3cr3t" =
      { status := 400, body := Body.text ("The user not found") } ∧
    loginHandler dbHashA { email := "bob@example.com", password := "wrong" } "s3cr3t" =
      { status := 400, body := Body.text ("Password is wrong") } :=
  ⟨(login_distinguishes_failures dbHashA
      { email := "ghost@example.com", password := "pw" } "s3cr3t").1 (by decide),
   (login_distinguishes_failures dbHashA
      { email := "bob@example.com", password := "wrong" } "s3cr3t").2.1 userA (by decide) (by decide)⟩

/-- C2: a product update never touches the orders collection: the state
produced by PUT /products/:id carries exactly the previous orders, so the
stored totalPrice of every existing order is unchanged by any product
price change; the total is a snapshot taken at order creation. -/
theorem productUpdate_preserves_orders (st : DB) (paramId : String) (body : ProductBody) :
    (productUpdateHandler st paramId body).state.orders = st.orders ∧
    ∀ o, o ∈ st.orders → o ∈ (productUpdateHandler st paramId body).state.orders := by
  have h : (productUpdateHandler st paramId body).state.orders = st.orders := by
    unfold productUpdateHandler
    cases hc : findCategory st body.category
    · rfl
    · dsimp
      split
      · cases hp : findProduct st paramId <;> simp [hp]
      · rfl
  exact ⟨h, fun o ho => by rw [h]; exact ho⟩

/-- Witness for productUpdate_preserves_orders: updating prod1 from price
10 to 999 leaves the seeded order (stored total 25) untouched while the
catalog price really changes. -/
theorem productUpdate_preserves_orders_witness :
    (productUpdateHandler dbCat pid1 prodBody2).state.orders = dbCat.orders ∧
    orderSeed ∈ (productUpdateHandler dbCat pid1 prodBody2).state.orders ∧
    catalogPrice dbCat pid1 = 10 ∧
    catalogPrice (productUpdateHandler dbCat pid1 prodBody2).state pid1 = 999 :=
  ⟨(productUpdate_preserves_orders dbCat pid1 prodBody2).1,
   (productUpdate_preserves_orders dbCat pid1 prodBody2).2 orderSeed (by decide),
   by decide, by decide⟩

/-- C10: on a syntactically invalid product id the PUT /products/:id
handler sends the 400 Invalid Product Id response but keeps executing: the
category lookup is still reached, with a missing category a second
response is sent for the same request, and with an existing category the
database update is still attempted (rejecting with a CastError). -/
theorem productUpdate_invalidId_continues (st : DB) (paramId : String) (body : ProductBody)
    (hinv : isValidObjectId paramId = false) :
    (productUpdateHandler st paramId body).responses.head? = some invalidIdResp ∧
    (productUpdateHandler st paramId body).categoryLookupAttempted = true ∧
    (findCategory st body.category = none →
      (productUpdateHandler st paramId body).responses = [invalidIdResp, invalidCategoryResp]) ∧
    (∀ c, findCategory st body.category = some c →
      (productUpdateHandler st paramId body).updateAttempted = true ∧
      (productUpdateHandler st paramId body).castError = true) := by
  unfold productUpdateHandler
  cases h : findCategory st body.category <;> simp [hinv, h]

/-- Witness for productUpdate_invalidId_continues: the invalid id abc with
a store lacking the category (two responses sent) and with a store holding
it (update still attempted, CastError). -/
theorem productUpdate_invalidId_continues_witness :
    (productUpdateHandler emptyDB ("abc") prodBody2).responses =
      [invalidIdResp, invalidCategoryResp] ∧
    (productUpdateHandler dbCat ("abc") prodBody2).updateAttempted = true ∧
    (productUpdateHandler dbCat ("abc") prodBody2).castError = true :=
  ⟨(productUpdate_invalidId_continues emptyDB ("abc") prodBody2 (by decide)).2.2.1 (by decide),
   ((productUpdate_invalidId_continues dbCat ("abc") prodBody2 (by decide)).2.2.2 cat1 (by decide)).1,
   ((productUpdate_invalidId_continues dbCat ("abc") prodBody2 (by decide)).2.2.2 cat1 (by decide)).2⟩

/-! ### Lemmas about the deletion cascade -/

/-- The per-item cascade never touches the orders collection. -/
lemma deleteItems_orders (ids : List Nat) (st : DB) :
    (deleteItems st ids).1.orders = st.orders := by
  induction ids generalizing st with
  | nil => rfl
  | cons i rest ih =>
    unfold deleteItems
    cases h : findOrderItem st i
    · exact ih st
    · exact ih (removeOrderItem st i)

/-- After removing an order item by id, looking that id up finds nothing. -/
lemma findOrderItem_remove_self (st : DB) (i : Nat) :
    findOrderItem (removeOrderItem st i) i = none := by
  simp only [findOrderItem, removeOrderItem]
  rw [List.find?_eq_none]
  intro it hmem
  have := List.of_mem_filter hmem
  simpa using this

/-- Removing one order item cannot make another id appear. -/
lemma findOrderItem_remove_mono (st : DB) (j i : Nat) (h : findOrderItem st i = none) :
    findOrderItem (removeOrderItem st j) i = none := by
  simp only [findOrderItem, removeOrderItem] at h ⊢
  rw [List.find?_eq_none] at h ⊢
  intro it hmem
  exact h it (List.mem_of_mem_filter hmem)

/-- The cascade only removes: an id absent before stays absent after. -/
lemma deleteItems_mono (ids : List Nat) (st : DB) (i : Nat)
    (h : findOrderItem st i = none) :
    findOrderItem (deleteItems st ids).1 i = none := by
  induction ids generalizing st with
  | nil => exact h
  | cons j rest ih =>
    unfold deleteItems
    cases hj : findOrderItem st j
    · exact ih st h
    · exact ih (removeOrderItem st j) (findOrderItem_remove_mono st j i h)

/-- Every id the cascade visits is absent from the final store. -/
lemma deleteItems_removes (ids : List Nat) (st : DB) (i : Nat) (hmem : i ∈ ids) :
    findOrderItem (deleteItems st ids).1 i = none := by
  induction ids generalizing st with
  | nil => cases hmem
  | cons j rest ih =>
    unfold deleteItems
    cases hj : findOrderItem st j
    · rcases List.mem_cons.mp hmem with rfl | hm
      · exact deleteItems_mono rest st i hj
      · exact ih st hm
    · rcases List.mem_cons.mp hmem with rfl | hm
      · exact deleteItems_mono rest (removeOrderItem st i) i (findOrderItem_remove_self st i)
      · exact ih (removeOrderItem st j) hm

/-- A visited id that is already absent is logged and the cascade goes on. -/
lemma deleteItems_logs (ids : List Nat) (st : DB) (i : Nat) (hmem : i ∈ ids)
    (habs : findOrderItem st i = none) :
    itemLog i ∈ (deleteItems st ids).2 := by
  induction ids generalizing st with
  | nil => cases hmem
  | cons j rest ih =>
    unfold deleteItems
    cases hj : findOrderItem st j
    · rcases List.mem_cons.mp hmem with rfl | hm
      · exact List.mem_cons_self _ _
      · exact List.mem_cons_of_mem _ (ih st hm habs)
    · rcases List.mem_cons.mp hmem with rfl | hm
      · rw [habs] at hj; cases hj
      · exact ih (removeOrderItem st j) hm (findOrderItem_remove_mono st j i habs)

/-- After removing an order by id, looking that id up finds nothing. -/
lemma findOrder_remove_self (st : DB) (oid : Nat) :
    findOrder (removeOrder st oid) oid = none := by
  simp only [findOrder, removeOrder]
  rw [List.find?_eq_none]
  intro o hmem
  have := List.of_mem_filter hmem
  simpa using this

/-- C4: DELETE /orders/:id answers 404 on a missing order, leaving the
store untouched; on an existing order it answers 200 success, the order is
gone, every referenced order item is gone from the final store, and an
item already absent when the cascade runs is logged without aborting the
deletion. -/
theorem deleteOrder_spec (st : DB) (oid : Nat) :
    (findOrder st oid = none → deleteOrderHandler st oid = (st, orderNotFoundResp, [])) ∧
    (∀ o, findOrder st oid = some o →
      (deleteOrderHandler st oid).2.1 = orderDeletedResp ∧
      findOrder (deleteOrderHandler st oid).1 oid = none ∧
      (∀ i ∈ o.orderItems, findOrderItem (deleteOrderHandler st oid).1 i = none) ∧
      (∀ i ∈ o.orderItems, findOrderItem (removeOrder st oid) i = none →
        itemLog i ∈ (deleteOrderHandler st oid).2.2)) := by
  constructor
  · intro h
    simp [deleteOrderHandler, h]
  · intro o ho
    have hred : deleteOrderHandler st oid =
        ((deleteItems (removeOrder st oid) o.orderItems).1, orderDeletedResp,
         (deleteItems (removeOrder st oid) o.orderItems).2) := by
      simp [deleteOrderHandler, ho]
    refine ⟨by rw [hred], ?_, ?_, ?_⟩
    · rw [hred]
      have horders : (deleteItems (removeOrder st oid) o.orderItems).1.orders =
          (removeOrder st oid).orders := deleteItems_orders _ _
      simp only [findOrder] at *
      rw [horders]
      exact findOrder_remove_self st oid
    · intro i hi
      rw [hred]
      exact deleteItems_removes _ _ _ hi
    · intro i hi habs
      rw [hred]
      exact deleteItems_logs _ _ _ hi habs

/-- Witness for deleteOrder_spec: deleting order 41 (items 10 and 11, item
11 already gone) succeeds, removes the order and item 10, and logs item
11; deleting the absent id 99 answers 404 with the store unchanged. -/
theorem deleteOrder_spec_witness :
    (deleteOrderHandler db4 41).2.1 = orderDeletedResp ∧
    findOrder (deleteOrderHandler db4 41).1 41 = none ∧
    findOrderItem (deleteOrderHandler db4 41).1 10 = none ∧
    findOrderItem (deleteOrderHandler db4 41).1 11 = none ∧
    itemLog 11 ∈ (deleteOrderHandler db4 41).2.2 ∧
    deleteOrderHandler db4 99 = (db4, orderNotFoundResp, []) := by
  have h := (deleteOrder_spec db4 41).2 order41 (by decide)
  exact ⟨h.1, h.2.1, h.2.2.1 10 (by decide), h.2.2.1 11 (by decide),
    h.2.2.2 11 (by decide) (by decide), (deleteOrder_spec db4 99).1 (by decide)⟩

/-! ### Lemmas about order-item saving and price resolution -/

/-- Saving order items never touches the products collection. -/
lemma saveOrderItems_products (ls : List CartLine) (st : DB) :
    (saveOrderItems st ls).1.products = st.products := by
  induction ls generalizing st with
  | nil => rfl
  | cons l rest ih => exact ih (saveOrderItem st l).1

/-- Saving order items never touches the orders collection. -/
lemma saveOrderItems_orders (ls : List CartLine) (st : DB) :
    (saveOrderItems st ls).1.orders = st.orders := by
  induction ls generalizing st with
  | nil => rfl
  | cons l rest ih => exact ih (saveOrderItem st l).1

/-- Saving one order item preserves well-formedness of the store. -/
lemma saveOrderItem_wf (st : DB) (l : CartLine) (h : wf st) :
    wf (saveOrderItem st l).1 := by
  intro it hit
  simp only [saveOrderItem, List.mem_append, List.mem_singleton] at hit
  show it.id < st.nextId + 1
  rcases hit with hit | rfl
  · exact Nat.lt_trans (h it hit) (Nat.lt_succ_self _)
  · exact Nat.lt_succ_self _

/-- An id below the fresh-id counter resolves to the same document before
and after a batch of saves: fresh ids never shadow existing ones. -/
lemma findOrderItem_save_lt (ls : List CartLine) (st : DB) (i : Nat)
    (hlt : i < st.nextId) :
    findOrderItem (saveOrderItems st ls).1 i = findOrderItem st i := by
  induction ls generalizing st with
  | nil => rfl
  | cons l rest ih =>
    have h1 : findOrderItem (saveOrderItems (saveOrderItem st l).1 rest).1 i =
        findOrderItem (saveOrderItem st l).1 i :=
      ih (saveOrderItem st l).1 (Nat.lt_trans hlt (Nat.lt_succ_self _))
    have h2 : findOrderItem (saveOrderItem st l).1 i = findOrderItem st i := by
      simp only [findOrderItem, saveOrderItem]
      rw [List.find?_append]
      have hone : List.find? (fun it : OrderItem => it.id == i)
          [{ id := st.nextId, quantity := l.quantity, product := l.product }] = none := by
        simp only [List.find?]
        have : (st.nextId == i) = false := by
          rw [beq_eq_false_iff_ne]
          omega
        simp [this]
      rw [hone, Option.or_none]
    exact h1.trans h2

/-- In a well-formed store the item just saved for a cart line is found
again under the id the save returned. -/
lemma findOrderItem_save_self (st : DB) (l : CartLine) (h : wf st) :
    findOrderItem (saveOrderItem st l).1 st.nextId =
      some { id := st.nextId, quantity := l.quantity, product := l.product } := by
  simp only [findOrderItem, saveOrderItem]
  rw [List.find?_append]
  have hnone : List.find? (fun it => it.id == st.nextId) st.orderItems = none := by
    rw [List.find?_eq_none]
    intro it hit
    have h2 := h it hit
    simp only [beq_iff_eq]
    omega
  rw [hnone]
  simp [List.find?]

/-- The head item of a batch save is still found after the rest of the
batch is saved. -/
lemma head_item_find (st : DB) (l : CartLine) (rest : List CartLine) (h : wf st) :
    findOrderItem (saveOrderItems (saveOrderItem st l).1 rest).1 st.nextId =
      some { id := st.nextId, quantity := l.quantity, product := l.product } := by
  rw [findOrderItem_save_lt rest (saveOrderItem st l).1 st.nextId (Nat.lt_succ_self _)]
  exact findOrderItem_save_self st l h

/-- In a well-formed store where every cart product exists, resolving the
line totals through the saved order items succeeds and yields, line by
line, the catalog price times the quantity. -/
lemma resolve_after_save (ls : List CartLine) :
    ∀ st : DB, wf st → (∀ l ∈ ls, (findProduct st l.product).isSome = true) →
    mapExcept (resolveItemTotal (saveOrderItems st ls).1) (saveOrderItems st ls).2 =
      Except.ok (ls.map (fun l => catalogPrice st l.product * l.quantity)) := by
  induction ls with
  | nil => intro st _ _; rfl
  | cons l rest ih =>
    intro st h hall
    have hwf1 : wf (saveOrderItem st l).1 := saveOrderItem_wf st l h
    have hfind := head_item_find st l rest h
    have hprodeq : (saveOrderItems (saveOrderItem st l).1 rest).1.products = st.products :=
      saveOrderItems_products rest (saveOrderItem st l).1
    obtain ⟨p, hp⟩ := Option.isSome_iff_exists.mp (hall l (List.mem_cons_self l rest))
    have hp2 : findProduct (saveOrderItems (saveOrderItem st l).1 rest).1 l.product = some p := by
      simp only [findProduct, hprodeq]
      exact hp
    have hres : resolveItemTotal (saveOrderItems (saveOrderItem st l).1 rest).1 st.nextId =
        Except.ok (p.price * l.quantity) := by
      simp [resolveItemTotal, hfind, hp2]
    have ihr : mapExcept (resolveItemTotal (saveOrderItems (saveOrderItem st l).1 rest).1)
        (saveOrderItems (saveOrderItem st l).1 rest).2 =
        Except.ok (rest.map (fun l2 => catalogPrice st l2.product * l2.quantity)) :=
      ih (saveOrderItem st l).1 hwf1 (fun l2 hl2 => hall l2 (List.mem_cons_of_mem _ hl2))
    show mapExcept (resolveItemTotal (saveOrderItems (saveOrderItem st l).1 rest).1)
        (st.nextId :: (saveOrderItems (saveOrderItem st l).1 rest).2) = _
    simp only [mapExcept, hres, ihr]
    simp [catalogPrice, hp]

/-- If some cart line references a missing product, resolving the line
totals through the saved order items rejects with an error. -/
lemma resolve_after_save_error (ls : List CartLine) :
    ∀ st : DB, wf st → ∀ l, l ∈ ls → findProduct st l.product = none →
    ∃ e, mapExcept (resolveItemTotal (saveOrderItems st ls).1) (saveOrderItems st ls).2 =
      Except.error e := by
  induction ls with
  | nil => intro st _ l hl; cases hl
  | cons l0 rest ih =>
    intro st h l hl hmiss
    rcases List.mem_cons.mp hl with rfl | hm
    · have hfind := head_item_find st l rest h
      have hprodeq : (saveOrderItems (saveOrderItem st l).1 rest).1.products = st.products :=
        saveOrderItems_products rest (saveOrderItem st l).1
      have hmiss2 : findProduct (saveOrderItems (saveOrderItem st l).1 rest).1 l.product = none := by
        simp only [findProduct, hprodeq]
        exact hmiss
      refine ⟨"TypeError: Cannot read properties of null (reading price)", ?_⟩
      show mapExcept (resolveItemTotal (saveOrderItems (saveOrderItem st l).1 rest).1)
          (st.nextId :: (saveOrderItems (saveOrderItem st l).1 rest).2) = _
      simp [mapExcept, resolveItemTotal, hfind, hmiss2]
    · have hwf1 : wf (saveOrderItem st l0).1 := saveOrderItem_wf st l0 h
      obtain ⟨e, he⟩ := ih (saveOrderItem st l0).1 hwf1 l hm hmiss
      show ∃ e, mapExcept (resolveItemTotal (saveOrderItems (saveOrderItem st l0).1 rest).1)
          (st.nextId :: (saveOrderItems (saveOrderItem st l0).1 rest).2) = Except.error e
      cases hhead : resolveItemTotal (saveOrderItems (saveOrderItem st l0).1 rest).1 st.nextId with
      | error e0 => exact ⟨e0, by simp [mapExcept, hhead]⟩
      | ok v => exact ⟨e, by simp [mapExcept, hhead, he]⟩

/-- The code multiplies price by quantity, the specification quantity by
price; the mapped lists agree. -/
lemma map_mul_comm (st : DB) (ls : List CartLine) :
    ls.map (fun l => catalogPrice st l.product * l.quantity) =
      ls.map (fun l => l.quantity * catalogPrice st l.product) := by
  induction ls with
  | nil => rfl
  | cons l rest ih => simp [ih, Int.mul_comm]

/-- C1: for a well-formed store and a cart in which every referenced
product exists, POST /orders saves exactly one order whose stored
totalPrice is the sum over the cart lines of quantity times the catalog
price at creation time; in particular an empty cart stores totalPrice 0. -/
theorem createOrder_totalPrice (st : DB) (body : OrderBody)
    (hwf : wf st)
    (hall : ∀ l ∈ body.orderItems, (findProduct st l.product).isSome = true) :
    ∃ order : Order,
      (createOrder st body).2 = Except.ok order ∧
      (createOrder st body).1.orders = st.orders ++ [order] ∧
      order.totalPrice = cartTotal st body.orderItems ∧
      (body.orderItems = [] → order.totalPrice = 0) := by
  have hres := resolve_after_save body.orderItems st hwf hall
  unfold createOrder
  dsimp only
  rw [hres]
  refine ⟨_, rfl, ?_, ?_, ?_⟩
  · simp [saveOrderItems_orders]
  · show (body.orderItems.map (fun l => catalogPrice st l.product * l.quantity)).foldl
        (fun a b => a + b) 0 = cartTotal st body.orderItems
    rw [cartTotal, map_mul_comm]
  · intro hempty
    simp [hempty]

/-- Witness for createOrder_totalPrice at the specification example: cart
of 2 at price 10 plus 1 at price 5 against the sample catalog gives 25. -/
theorem createOrder_totalPrice_witness :
    wf dbCat ∧
    (∀ l ∈ body1.orderItems, (findProduct dbCat l.product).isSome = true) ∧
    (∃ order : Order,
      (createOrder dbCat body1).2 = Except.ok order ∧
      (createOrder dbCat body1).1.orders = dbCat.orders ++ [order] ∧
      order.totalPrice = cartTotal dbCat body1.orderItems ∧
      (body1.orderItems = [] → order.totalPrice = 0)) ∧
    cartTotal dbCat body1.orderItems = 25 :=
  ⟨by decide, by decide, createOrder_totalPrice dbCat body1 (by decide) (by decide), by decide⟩

/-- C5: a cart line whose product is missing at price-resolution time
makes POST /orders fail with an error (the TypeError thrown when reading
price off the null populated product): no order is persisted and no total
with a silently zero-coerced price is stored. -/
theorem createOrder_missingProduct (st : DB) (body : OrderBody) (l : CartLine)
    (hwf : wf st) (hmem : l ∈ body.orderItems)
    (hmiss : findProduct st l.product = none) :
    (∃ e, (createOrder st body).2 = Except.error e) ∧
    (createOrder st body).1.orders = st.orders := by
  obtain ⟨e, he⟩ := resolve_after_save_error body.orderItems st hwf l hmem hmiss
  constructor
  · refine ⟨e, ?_⟩
    unfold createOrder
    dsimp only
    rw [he]
  · unfold createOrder
    dsimp only
    rw [he]
    exact saveOrderItems_orders _ _

/-- Witness for createOrder_missingProduct: the ghost cart line references
a product id absent from the sample catalog. -/
theorem createOrder_missingProduct_witness :
    wf dbCat ∧ lineGhost ∈ bodyGhost.orderItems ∧
    findProduct dbCat lineGhost.product = none ∧
    (∃ e, (createOrder dbCat bodyGhost).2 = Except.error e) ∧
    (createOrder dbCat bodyGhost).1.orders = dbCat.orders :=
  ⟨by decide, by decide, by decide,
   (createOrder_missingProduct dbCat bodyGhost lineGhost (by decide) (by decide) (by decide)).1,
   (createOrder_missingProduct dbCat bodyGhost lineGhost (by decide) (by decide) (by decide)).2⟩

end Eshop
